import Mathlib

/-!
Shallow embedding of the dnspod-http-dns-libev proxy (src/src/main.c and
src/src/options.c) together with theorems settling the frozen claims about
its specification.

Strings from the C code are modelled as List Char (the bytes of a
NUL-terminated C string, without the terminator); machine integers carry no
arithmetic here and are modelled as Nat or Int.  The functions declared in
headers whose implementations are not under src/ (text_to_dns) are modelled
from the spec and say so in their doc comments.
-/

set_option autoImplicit false
set_option linter.unusedVariables false
set_option maxRecDepth 8192
set_option maxHeartbeats 1600000

/-! Wire-side data model (main.c) -/

/-- The request_t context of main.c lines 43-48: transaction id, client
address (modelled as an opaque Nat) and the escaped name stored in the
254-byte name field.  The dns_server_t back pointer carries no information
for the claims and is omitted. -/
structure Request where
  tx_id : Nat
  raddr : Nat
  name : List Char
deriving DecidableEq

/-- The app_state_t of main.c lines 36-41: the curl_slist of pinned
resolutions (NULL modelled as none) and the extra_request_args string.
The https_client_t pointer is omitted. -/
structure AppState where
  resolv : Option (List String)
  extra : List Char
deriving DecidableEq

/-- A DNS response as produced by the encoder: header id, question name and
one answer record per address (answer count is the list length). -/
structure DnsResponse where
  id : Nat
  qname : List Char
  answers : List (List Char)
deriving DecidableEq

/-- Observable outcome of one https_resp_cb invocation: the reply handed to
dns_server_respond (none if no reply was sent) and how many times free(req)
ran. -/
structure CbResult where
  reply : Option DnsResponse
  frees : Nat
deriving DecidableEq

/-- Outcome of dns_server_cb: either the query is dropped (main.c lines
101-104) or one https_client_fetch is issued with the built url, the
app resolv list and the freshly allocated request context. -/
inductive ServerAction where
  | drop
  | fetch (url : List Char) (resolv : Option (List String)) (req : Request)
deriving DecidableEq

/-- Characters libcurl leaves unescaped in curl_escape: ASCII alphanumerics
and minus, dot, underscore, tilde. -/
def curlUnreserved (c : Char) : Bool :=
  c.isAlphanum || c = '-' || c = '.' || c = '_' || c = '~'

/-- Upper-case hex digit for a value below 16. -/
def hexUpper (n : Nat) : Char :=
  if n < 10 then Char.ofNat (48 + n) else Char.ofNat (55 + n)

/-- curl_escape (main.c line 108): every character outside the unreserved
set becomes a percent sign followed by two upper-case hex digits of its
byte value. -/
def curlEscape (s : List Char) : List Char :=
  s.flatMap fun c =>
    if curlUnreserved c then [c]
    else ['%', hexUpper (c.toNat / 16 % 16), hexUpper (c.toNat % 16)]

/-- The fixed part of the upstream URL hard-coded in main.c line 111. -/
def urlHead : List Char := ("http://119.29.29.29/d?dn=").data

/-- The extra_request_args computation of main.c lines 156-164: empty when
no EDNS client subnet is configured, otherwise an ip query parameter
rendered by snprintf into a buffer of size 199 (so at most 198 characters
are kept). -/
def extraRequestArgs (subnet : List Char) : List Char :=
  if subnet = [] then []
  else (("&ip=").data ++ subnet).take 198

/-- The app state main.c builds before ev_run: app.resolv is set to NULL at
line 155 and never reassigned, and extra_request_args comes from the
configured subnet. -/
def mainApp (subnet : List Char) : AppState :=
  { resolv := none, extra := extraRequestArgs subnet }

/-- dns_server_cb (main.c lines 93-125).  A query whose type is not 1 or
whose name exceeds 253 bytes is dropped with no fetch and no reply; an
accepted query produces one https_client_fetch whose url is rendered by
snprintf into a 1500-byte buffer with size argument 1499 (at most 1498
characters kept) and whose context copies the escaped name and the
transaction id.  The cd_bit local of line 107 is computed and never used,
so it is omitted. -/
def dns_server_cb (app : AppState) (addr : Nat) (tx_id : Nat) (flags : Nat)
    (name : List Char) (qtype : Int) : ServerAction :=
  if qtype ≠ 1 ∨ 253 < name.length then ServerAction.drop
  else
    ServerAction.fetch ((urlHead ++ curlEscape name ++ app.extra).take 1498)
      app.resolv
      { tx_id := tx_id, raddr := addr, name := curlEscape name }

/-- Split a character list at every semicolon; the result always has one
segment more than there are semicolons. -/
def splitSemi : List Char → List (List Char)
  | [] => [[]]
  | c :: rest =>
    if c = ';' then [] :: splitSemi rest
    else (c :: (splitSemi rest).headD []) :: (splitSemi rest).tail

/-- Address list a text body of the form name, colon, address-list denotes:
everything after the first colon, split at semicolons, empty segments
removed. -/
def answersOf (s : List Char) : List (List Char) :=
  (splitSemi ((s.dropWhile (fun c => c != ':')).drop 1)).filter (fun a => !a.isEmpty)

/-- Name part of a text body of the form name, colon, address-list. -/
def qnameOf (s : List Char) : List Char := s.takeWhile (fun c => c != ':')

/-- Modelled from the spec: text_to_dns is declared in text_to_dns.h but its
implementation is not under src/.  Per spec sections 4.1 and 8 it encodes a
DNS message that reuses the transaction id it is given and appends one
answer resource record per address of the plain-text list, in order; a body
yielding no address makes it report failure (a non-positive return,
modelled as none). -/
def text_to_dns (tx_id : Nat) (s : List Char) : Option DnsResponse :=
  if answersOf s = [] then none
  else some { id := tx_id, qname := qnameOf s, answers := answersOf s }

/-- https_resp_cb (main.c lines 58-91).  A NULL buffer (fetch failure)
returns at line 61 before free(req) runs: no reply and no release.  With a
body, lines 67-76 build bufcpy as the stored name, a colon, then the body
bytes up to the first semicolon; text_to_dns encodes it, a reply is sent
exactly when the encoder succeeds, and free(req) runs once on both encoder
outcomes (lines 89-90). -/
def https_resp_cb (req : Request) (buf : Option (List Char)) : CbResult :=
  match buf with
  | none => { reply := none, frees := 0 }
  | some b =>
    { reply := text_to_dns req.tx_id (req.name ++ ':' :: b.takeWhile (fun c => c != ';')),
      frees := 1 }

/-- One accepted-or-dropped query followed by its fetch completion: none
when the query is dropped (no fetch issued), otherwise the observable
outcome of the completion callback on the given fetch result. -/
def pipeline (app : AppState) (addr : Nat) (tx_id : Nat) (flags : Nat)
    (name : List Char) (qtype : Int) (buf : Option (List Char)) : Option CbResult :=
  match dns_server_cb app addr tx_id flags name qtype with
  | ServerAction.drop => none
  | ServerAction.fetch _ _ req => some (https_resp_cb req buf)

/-- Request context of a ServerAction, when one was allocated. -/
def fetchRequest : ServerAction → Option Request
  | ServerAction.drop => none
  | ServerAction.fetch _ _ r => some r

/-! The delimiter scan of main.c line 69, with its memory reads

The loop condition of line 69 evaluates buf at datalen first and only then
checks datalen against buflen, so every condition evaluation is one read of
buf at the current index.  Memory is modelled as a total function from
indices to bytes so that a read beyond buflen is expressible; the scan
returns the final datalen together with every index it read.  The fuel
argument buflen+1 covers the longest possible run. -/

def delimScanGo (buf : Nat → Char) (buflen : Nat) : Nat → Nat → Nat × List Nat
  | 0, i => (i, [])
  | fuel + 1, i =>
    if buf i != ';' ∧ i < buflen then
      ((delimScanGo buf buflen fuel (i + 1)).1,
        i :: (delimScanGo buf buflen fuel (i + 1)).2)
    else (i, [i])

/-- The full scan of main.c line 69 starting at datalen zero. -/
def delimScan (buf : Nat → Char) (buflen : Nat) : Nat × List Nat :=
  delimScanGo buf buflen (buflen + 1) 0

/-- A two-byte body holding the bytes of ab, with an arbitrary garbage byte
beyond the declared length. -/
def oobBody : Nat → Char :=
  fun i => if i = 0 then 'a' else if i = 1 then 'b' else 'X'

/-! options.c -/

/-- Value of the LOG_ERROR level from logging.h (not under src/); its exact
value is irrelevant to every claim, only the decrement by the v option
touches it. -/
def LOG_ERROR : Int := 3

/-- struct Options with the fields options.c reads and writes. -/
structure Options where
  listen_addr : String
  listen_port : Int
  edns_client_subnet : String
  logfile : String
  logfd : Int
  loglevel : Int
  daemonize : Bool
  user : String
  group : String
  uid : Int
  gid : Int
  bootstrap_dns : String
  curl_proxy : Option String
  use_http_1_1 : Bool
deriving DecidableEq

/-- options_init (options.c lines 16-32). -/
def options_init : Options :=
  { listen_addr := "0.0.0.0"
    listen_port := 5353
    edns_client_subnet := ""
    logfile := "-"
    logfd := -1
    loglevel := LOG_ERROR
    daemonize := false
    user := "nobody"
    group := "nobody"
    uid := -1
    gid := -1
    bootstrap_dns := "8.8.8.8,8.8.4.4,145.100.185.15,145.100.185.16,185.49.141.37,199.58.81.218,80.67.188.188"
    curl_proxy := none
    use_http_1_1 := false }

/-- Digit run consumed by atoi. -/
def digitsVal : List Char → Nat → Nat
  | [], acc => acc
  | c :: rest, acc =>
    if c.isDigit then digitsVal rest (acc * 10 + (c.toNat - 48))
    else acc

/-- libc atoi as used for the port argument: an optional leading minus sign
followed by a digit run. -/
def atoi (s : String) : Int :=
  match s.data with
  | '-' :: rest => - Int.ofNat (digitsVal rest 0)
  | l => Int.ofNat (digitsVal l 0)

/-- The option characters listed in the getopt option string of options.c
line 36, which is a:p:e:du:g:t:l:vxh.  The character b is not among them. -/
def isKnownOpt (c : Char) : Bool :=
  c = 'a' || c = 'p' || c = 'e' || c = 'd' || c = 'u' || c = 'g' ||
  c = 't' || c = 'l' || c = 'v' || c = 'x' || c = 'h'

/-- What getopt hands to the switch for one option character of the command
line: the character itself when it appears in the option string, otherwise
a question mark. -/
def getoptReturn (c : Char) : Char :=
  if isKnownOpt c then c else '?'

/-- Result of one iteration of the while loop of options.c lines 36-80:
continue with updated options, or leave options_parse_args early. -/
inductive LoopStep where
  | cont (o : Options)
  | failure
  | fatalExit
deriving DecidableEq

/-- Overall result of options_parse_args: 0 with the final options, the -1
returns, or the exit(EXIT_FAILURE) of the default case. -/
inductive ParseResult where
  | success (o : Options)
  | failure
  | fatalExit
deriving DecidableEq

/-- The switch of options.c lines 37-79, applied to the character getopt
returned.  The b case (lines 56-58) is transcribed even though getopt can
never return b, since b is absent from the option string. -/
def optSwitch (o : Options) (c : Char) (arg : String) : LoopStep :=
  match c with
  | 'a' => LoopStep.cont { o with listen_addr := arg }
  | 'p' => LoopStep.cont { o with listen_port := atoi arg }
  | 'e' => LoopStep.cont { o with edns_client_subnet := arg }
  | 'd' => LoopStep.cont { o with daemonize := true }
  | 'u' => LoopStep.cont { o with user := arg }
  | 'g' => LoopStep.cont { o with group := arg }
  | 'b' => LoopStep.cont { o with bootstrap_dns := arg }
  | 't' => LoopStep.cont { o with curl_proxy := some arg }
  | 'l' => LoopStep.cont { o with logfile := arg }
  | 'v' => LoopStep.cont { o with loglevel := o.loglevel - 1 }
  | 'x' => LoopStep.cont { o with use_http_1_1 := true }
  | 'h' => LoopStep.failure
  | '?' => LoopStep.failure
  | _ => LoopStep.fatalExit

/-- The getopt while loop over the option occurrences of the command line,
each given as the raw option character with its argument. -/
def getoptLoop (o : Options) : List (Char × String) → LoopStep
  | [] => LoopStep.cont o
  | (c, arg) :: rest =>
    match optSwitch o (getoptReturn c) arg with
    | LoopStep.cont o1 => getoptLoop o1 rest
    | LoopStep.failure => LoopStep.failure
    | LoopStep.fatalExit => LoopStep.fatalExit

/-- Environment options_parse_args consults: getpwnam (the pw_uid of the
named user, none when the lookup fails), getgrnam likewise, and the file
descriptor open returns for the log file (negative on failure). -/
structure OptEnv where
  pw : String → Option Nat
  gr : String → Option Nat
  openFd : String → Int

/-- The daemonize validation of options.c lines 81-94: a missing passwd
entry or pw_uid zero fails, then a missing group entry or gr_gid zero
fails, otherwise uid and gid are taken from the lookups. -/
def daemonCheck (env : OptEnv) (o : Options) : Option Options :=
  if o.daemonize then
    match env.pw o.user with
    | none => none
    | some uid =>
      if uid = 0 then none
      else
        match env.gr o.group with
        | none => none
        | some gid =>
          if gid = 0 then none
          else some { o with uid := Int.ofNat uid, gid := Int.ofNat gid }
  else some o

/-- options_parse_args (options.c lines 34-103): the getopt loop, the
daemonize validation, then the log file handling of lines 95-101.  A
logfile of minus uses STDOUT_FILENO; otherwise logfd receives whatever open
returned, a non-positive descriptor only triggers a printf, and the
function returns 0 either way. -/
def options_parse_args (env : OptEnv) (o0 : Options) (args : List (Char × String)) :
    ParseResult :=
  match getoptLoop o0 args with
  | LoopStep.failure => ParseResult.failure
  | LoopStep.fatalExit => ParseResult.fatalExit
  | LoopStep.cont o =>
    match daemonCheck env o with
    | none => ParseResult.failure
    | some o1 =>
      if o1.logfile = "-" then ParseResult.success { o1 with logfd := 1 }
      else ParseResult.success { o1 with logfd := env.openFd o1.logfile }

/-- main.c lines 130-133: main enters the event loop only when
options_parse_args returned 0; on failure it shows usage and exits. -/
def mainEntersEvRun (r : ParseResult) : Bool :=
  match r with
  | ParseResult.success _ => true
  | _ => false

/-! The startup sequence of main (main.c lines 135-193) -/

/-- The calls main makes between a successful option parse and ev_run.
The dns_poller_t variable of line 191 is declared but dns_poller_init is
never called, so no dnsPollerInit event can ever appear. -/
inductive StartupEvent where
  | loggingInit
  | curlGlobalInit
  | httpsClientInit
  | dnsServerInit
  | setgidCall
  | setuidCall
  | daemonCall
  | sigpipeStart
  | sigintStart
  | loggingFlushInit
  | dnsPollerInit
  | evRun
deriving DecidableEq

/-- Transcription of main.c lines 135-193 as the ordered list of startup
calls, conditional on the daemonize flag. -/
def mainStartupTrace (daemonize : Bool) : List StartupEvent :=
  [StartupEvent.loggingInit, StartupEvent.curlGlobalInit,
   StartupEvent.httpsClientInit, StartupEvent.dnsServerInit] ++
  (if daemonize then
    [StartupEvent.setgidCall, StartupEvent.setuidCall, StartupEvent.daemonCall]
   else []) ++
  [StartupEvent.sigpipeStart, StartupEvent.sigintStart,
   StartupEvent.loggingFlushInit, StartupEvent.evRun]

/-! Concrete values used by witnesses and counterexamples -/

/-- A request context as dns_server_cb stores it for the name example.com
with transaction id 0x1234. -/
def exampleReq : Request :=
  { tx_id := 4660, raddr := 0, name := ("example.com").data }

/-- A request context used for the failure-path evaluation. -/
def failReq : Request :=
  { tx_id := 17, raddr := 3, name := ("example.org").data }

/-- A 90-byte name made of exclamation marks: accepted by the length check
yet tripled by percent-escaping. -/
def bangName : List Char := List.replicate 90 '!'

/-- An environment whose user and group lookups fail and whose open fails. -/
def envNoLookup : OptEnv :=
  { pw := fun _ => none, gr := fun _ => none, openFd := fun _ => -1 }

/-- Options after the getopt loop consumed a d flag and an l argument. -/
def c8Opts : Options :=
  { options_init with daemonize := true, logfile := "/var/log/x" }

/-- Options produced by an empty command line: only logfd is set, to
STDOUT_FILENO. -/
def optionsAfterEmpty : Options := { options_init with logfd := 1 }

/-- The reply of concrete scenario 1 of the spec. -/
def scenarioResp : DnsResponse :=
  { id := 4660, qname := ("example.com").data, answers := [("93.184.216.34").data] }

/-- The callback outcome of concrete scenario 1 of the spec. -/
def scenarioCb : CbResult := { reply := some scenarioResp, frees := 1 }

/-! Helper lemmas -/

theorem takeWhile_append_sat (p : Char → Bool) (a b : List Char) (x : Char)
    (ha : a.all p = true) (hx : p x = false) :
    (a ++ x :: b).takeWhile p = a := by
  induction a with
  | nil => simp [List.takeWhile_cons, hx]
  | cons y ys ih =>
    rw [List.all_cons, Bool.and_eq_true] at ha
    simp [List.takeWhile_cons, ha.1, ih ha.2]

theorem dropWhile_append_sat (p : Char → Bool) (a b : List Char) (x : Char)
    (ha : a.all p = true) (hx : p x = false) :
    (a ++ x :: b).dropWhile p = x :: b := by
  induction a with
  | nil => simp [List.dropWhile_cons, hx]
  | cons y ys ih =>
    rw [List.all_cons, Bool.and_eq_true] at ha
    simp [List.dropWhile_cons, ha.1, ih ha.2]

theorem takeWhile_all_sat (p : Char → Bool) (l : List Char) :
    (l.takeWhile p).all p = true := by
  induction l with
  | nil => rfl
  | cons c rest ih =>
    cases hc : p c with
    | true => simp [List.takeWhile_cons, hc, ih]
    | false => simp [List.takeWhile_cons, hc]

theorem splitSemi_of_no_semi (s : List Char) (h : s.all (fun c => c != ';') = true) :
    splitSemi s = [s] := by
  induction s with
  | nil => rfl
  | cons c rest ih =>
    rw [List.all_cons, Bool.and_eq_true] at h
    have hc : ¬ c = ';' := by simpa using h.1
    simp [splitSemi, hc, ih h.2]

theorem curlEscape_length_le (s : List Char) : (curlEscape s).length ≤ 3 * s.length := by
  induction s with
  | nil => simp [curlEscape]
  | cons c rest ih =>
    have hc : (if curlUnreserved c then [c]
        else ['%', hexUpper (c.toNat / 16 % 16), hexUpper (c.toNat % 16)]).length ≤ 3 := by
      split <;> simp
    simp only [curlEscape, List.flatMap_cons, List.length_append, List.length_cons] at *
    omega

theorem text_to_dns_id (t : Nat) (s : List Char) (r : DnsResponse)
    (h : text_to_dns t s = some r) : r.id = t := by
  unfold text_to_dns at h
  split at h
  · cases h
  · have h2 := Option.some.inj h
    subst h2
    rfl

theorem https_resp_cb_reply_id (req : Request) (b : List Char) (resp : DnsResponse)
    (h : (https_resp_cb req (some b)).reply = some resp) :
    resp.id = req.tx_id :=
  text_to_dns_id _ _ _ h

theorem dns_server_cb_fetch_shape (app : AppState) (addr : Nat) (tx : Nat) (flags : Nat)
    (name : List Char) (qtype : Int) (u : List Char) (rv : Option (List String)) (r : Request)
    (h : dns_server_cb app addr tx flags name qtype = ServerAction.fetch u rv r) :
    r.tx_id = tx ∧ r.raddr = addr ∧ r.name = curlEscape name ∧ rv = app.resolv ∧
      u = (urlHead ++ curlEscape name ++ app.extra).take 1498 := by
  unfold dns_server_cb at h
  split at h
  · cases h
  · injection h with h1 h2 h3
    subst h1
    subst h2
    subst h3
    exact ⟨rfl, rfl, rfl, rfl, rfl⟩

/-! Claim C1 -/

/-- Claim C1: the claim says a fetch that reports failure results in zero
replies and exactly one context release.  Evaluating https_resp_cb on the
NULL buffer (the failure sentinel, main.c lines 60-62) shows zero replies
but also zero releases: the early return skips free(req), leaking the
context, while a completed fetch with a body releases it once. -/
theorem c1_failure_frees_nothing :
    https_resp_cb failReq none = { reply := none, frees := 0 } ∧
    (https_resp_cb failReq (some (("1.2.3.4").data))).frees = 1 := by
  constructor
  · rfl
  · rfl

/-! Claim C2 -/

/-- Claim C2 counterexample: the body of concrete scenario 2 does not parse
to both listed addresses; the delimiter scan of main.c line 69 stops at the
first semicolon, so only 93.184.216.34 reaches the encoder. -/
theorem c2_counterexample :
    (https_resp_cb exampleReq (some (("93.184.216.34;93.184.216.35;").data))).reply =
      some { id := 4660, qname := ("example.com").data,
             answers := [("93.184.216.34").data] } ∧
    ¬ (https_resp_cb exampleReq (some (("93.184.216.34;93.184.216.35;").data))).reply =
      some { id := 4660, qname := ("example.com").data,
             answers := [("93.184.216.34").data, ("93.184.216.35").data] } := by
  decide

/-- Claim C2 as amended: for every stored name free of colons and every
body whose part before the first semicolon is non-empty, the reply carries
exactly one answer record, holding the first semicolon-delimited address of
the body. -/
theorem c2_first_segment_only (req : Request) (body : List Char)
    (hname : req.name.all (fun c => c != ':') = true)
    (hseg : body.takeWhile (fun c => c != ';') ≠ []) :
    (https_resp_cb req (some body)).reply =
      some { id := req.tx_id, qname := req.name,
             answers := [body.takeWhile (fun c => c != ';')] } := by
  have hx : ((fun c => c != ':') ':') = false := by decide
  have hdrop : ((req.name ++ ':' :: body.takeWhile (fun c => c != ';')).dropWhile
      (fun c => c != ':')) = ':' :: body.takeWhile (fun c => c != ';') :=
    dropWhile_append_sat _ _ _ _ hname hx
  have htake : ((req.name ++ ':' :: body.takeWhile (fun c => c != ';')).takeWhile
      (fun c => c != ':')) = req.name :=
    takeWhile_append_sat _ _ _ _ hname hx
  have hans : answersOf (req.name ++ ':' :: body.takeWhile (fun c => c != ';'))
      = [body.takeWhile (fun c => c != ';')] := by
    unfold answersOf
    rw [hdrop, List.drop_succ_cons, List.drop_zero,
      splitSemi_of_no_semi _ (takeWhile_all_sat _ _)]
    have hne : (!(body.takeWhile (fun c => c != ';')).isEmpty) = true := by
      simp [List.isEmpty_iff, hseg]
    simp [List.filter_cons, hne]
  have ht : text_to_dns req.tx_id (req.name ++ ':' :: body.takeWhile (fun c => c != ';')) =
      some { id := req.tx_id, qname := req.name,
             answers := [body.takeWhile (fun c => c != ';')] } := by
    unfold text_to_dns qnameOf
    rw [hans, htake]
    simp
  show text_to_dns req.tx_id (req.name ++ ':' :: body.takeWhile (fun c => c != ';')) = _
  exact ht

/-- Claim C2 witness: the amended statement applied to the stored name
example.com and a single-address body. -/
theorem c2_witness :
    exampleReq.name.all (fun c => c != ':') = true ∧
    (("93.184.216.34").data).takeWhile (fun c => c != ';') ≠ [] ∧
    (https_resp_cb exampleReq (some (("93.184.216.34").data))).reply =
      some { id := 4660, qname := ("example.com").data,
             answers := [("93.184.216.34").data] } := by
  refine ⟨by decide, by decide, ?_⟩
  exact c2_first_segment_only exampleReq (("93.184.216.34").data) (by decide) (by decide)

/-! Claim C3 -/

/-- Claim C3: a query whose type is not A or whose name exceeds 253 bytes
is dropped by dns_server_cb: no fetch is issued and, whatever a fetch
completion could have carried, no reply is ever sent. -/
theorem c3_drop_invariant (app : AppState) (addr : Nat) (tx : Nat) (flags : Nat)
    (name : List Char) (qtype : Int)
    (h : qtype ≠ 1 ∨ 253 < name.length) :
    dns_server_cb app addr tx flags name qtype = ServerAction.drop ∧
    ∀ buf, pipeline app addr tx flags name qtype buf = none := by
  have hd : dns_server_cb app addr tx flags name qtype = ServerAction.drop := by
    unfold dns_server_cb
    rw [if_pos h]
  refine ⟨hd, fun buf => ?_⟩
  unfold pipeline
  rw [hd]

/-- Claim C3 witness: concrete scenario 3, a type AAAA (28) query for
example.com is dropped and yields no reply even when a body arrives. -/
theorem c3_witness :
    ((28 : Int) ≠ 1 ∨ 253 < (("example.com").data).length) ∧
    dns_server_cb (mainApp []) 0 7 0 (("example.com").data) 28 = ServerAction.drop ∧
    pipeline (mainApp []) 0 7 0 (("example.com").data) 28 (some (("1.2.3.4").data)) = none := by
  have h := c3_drop_invariant (mainApp []) 0 7 0 (("example.com").data) 28 (by decide)
  exact ⟨by decide, h.1, h.2 _⟩

/-! Claim C4 -/

/-- Claim C4: the claim says the delimiter scan reads only indices strictly
below buflen.  On the two-byte semicolon-free body ab the loop condition of
main.c line 69 evaluates buf at datalen before checking the bound, so the
scan reads index 2, which equals buflen. -/
theorem c4_scan_reads_past_end :
    delimScan oobBody 2 = (2, [0, 1, 2]) ∧
    2 ∈ (delimScan oobBody 2).2 ∧ ¬ 2 < 2 := by
  decide

/-! Claim C6 -/

/-- Claim C6: every reply produced for an accepted query carries the
transaction id of the original query verbatim: the id is copied into the
request context (main.c line 118) and handed to the encoder (line 83). -/
theorem c6_tx_id_preserved (app : AppState) (addr : Nat) (tx : Nat) (flags : Nat)
    (name : List Char) (qtype : Int) (body : List Char) (cb : CbResult) (resp : DnsResponse)
    (h1 : pipeline app addr tx flags name qtype (some body) = some cb)
    (h2 : cb.reply = some resp) :
    resp.id = tx := by
  unfold pipeline at h1
  cases hd : dns_server_cb app addr tx flags name qtype with
  | drop => rw [hd] at h1; cases h1
  | fetch u rv r =>
    rw [hd] at h1
    have h1' : some (https_resp_cb r (some body)) = some cb := h1
    have hcb := Option.some.inj h1'
    subst hcb
    have hid := https_resp_cb_reply_id r body resp h2
    have htx : r.tx_id = tx := (dns_server_cb_fetch_shape app addr tx flags name qtype u rv r hd).1
    rw [hid, htx]

/-- Claim C6 witness: concrete scenario 1, a type A query for example.com
with id 0x1234 answered by 93.184.216.34 produces a reply with id 0x1234,
answer count one and that address. -/
theorem c6_witness :
    pipeline (mainApp []) 0 4660 0 (("example.com").data) 1
      (some (("93.184.216.34").data)) = some scenarioCb ∧
    scenarioCb.reply = some scenarioResp ∧
    scenarioResp.answers = [("93.184.216.34").data] ∧
    scenarioResp.id = 4660 := by
  refine ⟨by decide, by decide, by decide, ?_⟩
  exact c6_tx_id_preserved (mainApp []) 0 4660 0 (("example.com").data) 1
    (("93.184.216.34").data) scenarioCb scenarioResp (by decide) (by decide)

/-! Claim C5 -/

/-- Claim C5 counterexample: the claim says bootstrap resolution is
triggered once at startup before the first fetch is allowed, but the
startup sequence of main reaches ev_run without ever calling
dns_poller_init (main.c line 191 declares the poller and never initializes
it). -/
theorem c5_counterexample :
    StartupEvent.dnsPollerInit ∉ mainStartupTrace false ∧
    StartupEvent.evRun ∈ mainStartupTrace false := by
  decide

/-- Claim C5 as amended: no bootstrap resolution is ever triggered, and
every fetch issued through the app state main builds carries the NULL
resolv list of main.c line 155, against the hard-coded upstream URL prefix
rather than a resolved host. -/
theorem c5_no_poller_null_resolv (d : Bool) (subnet : List Char) (addr : Nat) (tx : Nat)
    (flags : Nat) (name : List Char) (qtype : Int) (u : List Char)
    (rv : Option (List String)) (r : Request)
    (h : dns_server_cb (mainApp subnet) addr tx flags name qtype = ServerAction.fetch u rv r) :
    StartupEvent.dnsPollerInit ∉ mainStartupTrace d ∧ rv = none ∧
    ∃ rest, u = urlHead ++ rest := by
  obtain ⟨-, -, -, hrv, hu⟩ := dns_server_cb_fetch_shape _ _ _ _ _ _ _ _ _ h
  refine ⟨?_, hrv, ?_⟩
  · cases d <;> decide
  · refine ⟨(curlEscape name ++ (mainApp subnet).extra).take (1498 - urlHead.length), ?_⟩
    rw [hu, List.append_assoc, List.take_append_eq_append_take,
      List.take_of_length_le (by decide : urlHead.length ≤ 1498)]

/-- Claim C5 witness: the amended statement applied to an accepted query
for example.com with no configured subnet. -/
theorem c5_witness :
    dns_server_cb (mainApp []) 0 1 0 (("example.com").data) 1 =
      ServerAction.fetch (("http://119.29.29.29/d?dn=example.com").data) none
        { tx_id := 1, raddr := 0, name := ("example.com").data } ∧
    (StartupEvent.dnsPollerInit ∉ mainStartupTrace false ∧
      (none : Option (List String)) = none ∧
      ∃ rest, ("http://119.29.29.29/d?dn=example.com").data = urlHead ++ rest) := by
  refine ⟨by decide, ?_⟩
  exact c5_no_poller_null_resolv false [] 0 1 0 (("example.com").data) 1
    (("http://119.29.29.29/d?dn=example.com").data) none
    { tx_id := 1, raddr := 0, name := ("example.com").data } (by decide)

/-! Claim C7 -/

/-- Claim C7 counterexample: the claim says the upstream request is an
HTTPS GET; for an accepted query the URL main.c builds begins with the
plain http scheme against the hard-coded address, not https. -/
theorem c7_counterexample :
    dns_server_cb (mainApp []) 0 4660 0 (("example.com").data) 1 =
      ServerAction.fetch (("http://119.29.29.29/d?dn=example.com").data) none
        { tx_id := 4660, raddr := 0, name := ("example.com").data } ∧
    (("http://119.29.29.29/d?dn=example.com").data).take 8 ≠ ("https://").data := by
  decide

/-- Claim C7 as amended: for every accepted query the upstream request URL
is the hard-coded plain-HTTP endpoint with query string dn set to the
url-escaped name, with the ip parameter appended exactly when an EDNS
client subnet is configured and nothing appended otherwise. -/
theorem c7_url_structure (subnet : List Char) (name : List Char) (addr : Nat) (tx : Nat)
    (flags : Nat) (h1 : name.length ≤ 253) (h2 : subnet.length ≤ 194) :
    dns_server_cb (mainApp subnet) addr tx flags name 1 =
      ServerAction.fetch
        (urlHead ++ curlEscape name ++
          (if subnet = [] then [] else ("&ip=").data ++ subnet))
        none
        { tx_id := tx, raddr := addr, name := curlEscape name } := by
  have hip : ((("&ip=").data).length) = 4 := by decide
  have hextra : (mainApp subnet).extra =
      if subnet = [] then [] else ("&ip=").data ++ subnet := by
    unfold mainApp extraRequestArgs
    split
    · rfl
    · refine List.take_of_length_le ?_
      rw [List.length_append, hip]
      omega
  have hpre : urlHead.length = 25 := by decide
  have hext : (if subnet = [] then [] else ("&ip=").data ++ subnet).length ≤ 198 := by
    split
    · simp
    · rw [List.length_append, hip]
      omega
  have hlen : (urlHead ++ curlEscape name ++
      (if subnet = [] then [] else ("&ip=").data ++ subnet)).length ≤ 1498 := by
    have he := curlEscape_length_le name
    rw [List.length_append, List.length_append, hpre]
    omega
  have hneg : ¬ ((1 : Int) ≠ 1 ∨ 253 < name.length) := by
    intro hcon
    rcases hcon with hc | hc
    · exact hc rfl
    · omega
  unfold dns_server_cb
  rw [if_neg hneg, hextra, List.take_of_length_le hlen]
  rfl

/-- Claim C7 witness: the amended statement applied to example.com with a
configured subnet, and to the empty subnet where nothing is appended. -/
theorem c7_witness :
    (("example.com").data).length ≤ 253 ∧
    (("203.31.0.0/16").data).length ≤ 194 ∧
    dns_server_cb (mainApp (("203.31.0.0/16").data)) 9 2 0 (("example.com").data) 1 =
      ServerAction.fetch (("http://119.29.29.29/d?dn=example.com&ip=203.31.0.0/16").data)
        none { tx_id := 2, raddr := 9, name := ("example.com").data } := by
  refine ⟨by decide, by decide, ?_⟩
  have h := c7_url_structure (("203.31.0.0/16").data) (("example.com").data) 9 2 0
    (by decide) (by decide)
  rw [h]
  decide

/-! Claim C8 -/

/-- Claim C8 counterexample: the claim says an unwritable log path is fatal
at startup, but with a failing open the parse still returns success (the
printf at options.c line 100 is not followed by a failure return) and main
proceeds into the event loop. -/
theorem c8_counterexample :
    options_parse_args envNoLookup options_init [('l', "/bad/path")] =
      ParseResult.success { options_init with logfile := "/bad/path", logfd := -1 } ∧
    mainEntersEvRun
      (options_parse_args envNoLookup options_init [('l', "/bad/path")]) = true := by
  decide

/-- Claim C8 as amended: an invalid daemonization user or group makes
options_parse_args fail, so main exits before the event loop; an unwritable
log path is only reported and options_parse_args still succeeds, with main
entering ev_run. -/
theorem daemonCheck_pw_none (env : OptEnv) (o : Options) (hd : o.daemonize = true)
    (hpw : env.pw o.user = none) : daemonCheck env o = none := by
  simp [daemonCheck, hd, hpw]

theorem daemonCheck_pw_zero (env : OptEnv) (o : Options) (hd : o.daemonize = true)
    (hpw : env.pw o.user = some 0) : daemonCheck env o = none := by
  simp [daemonCheck, hd, hpw]

theorem daemonCheck_gr_none (env : OptEnv) (o : Options) (uid : Nat)
    (hd : o.daemonize = true) (hpw : env.pw o.user = some uid) (hne : uid ≠ 0)
    (hgr : env.gr o.group = none) : daemonCheck env o = none := by
  simp [daemonCheck, hd, hpw, hne, hgr]

theorem daemonCheck_gr_zero (env : OptEnv) (o : Options) (uid : Nat)
    (hd : o.daemonize = true) (hpw : env.pw o.user = some uid) (hne : uid ≠ 0)
    (hgr : env.gr o.group = some 0) : daemonCheck env o = none := by
  simp [daemonCheck, hd, hpw, hne, hgr]

theorem daemonCheck_off (env : OptEnv) (o : Options) (hd : o.daemonize = false) :
    daemonCheck env o = some o := by
  simp [daemonCheck, hd]

theorem c8_startup_failures (env : OptEnv) (args : List (Char × String)) (o : Options)
    (hloop : getoptLoop options_init args = LoopStep.cont o) :
    (o.daemonize = true → env.pw o.user = none →
        options_parse_args env options_init args = ParseResult.failure) ∧
    (o.daemonize = true → env.pw o.user = some 0 →
        options_parse_args env options_init args = ParseResult.failure) ∧
    (∀ uid, o.daemonize = true → env.pw o.user = some uid → uid ≠ 0 →
        env.gr o.group = none →
        options_parse_args env options_init args = ParseResult.failure) ∧
    (∀ uid, o.daemonize = true → env.pw o.user = some uid → uid ≠ 0 →
        env.gr o.group = some 0 →
        options_parse_args env options_init args = ParseResult.failure) ∧
    (o.daemonize = false → o.logfile ≠ "-" →
        options_parse_args env options_init args =
          ParseResult.success { o with logfd := env.openFd o.logfile } ∧
        mainEntersEvRun (options_parse_args env options_init args) = true) := by
  have hbase : options_parse_args env options_init args =
      (match daemonCheck env o with
        | none => ParseResult.failure
        | some o1 =>
          if o1.logfile = "-" then ParseResult.success { o1 with logfd := 1 }
          else ParseResult.success { o1 with logfd := env.openFd o1.logfile }) := by
    unfold options_parse_args
    rw [hloop]
  refine ⟨?_, ?_, ?_, ?_, ?_⟩
  · intro hd hpw
    rw [hbase, daemonCheck_pw_none env o hd hpw]
  · intro hd hpw
    rw [hbase, daemonCheck_pw_zero env o hd hpw]
  · intro uid hd hpw hne hgr
    rw [hbase, daemonCheck_gr_none env o uid hd hpw hne hgr]
  · intro uid hd hpw hne hgr
    rw [hbase, daemonCheck_gr_zero env o uid hd hpw hne hgr]
  · intro hd hlog
    have hr : options_parse_args env options_init args =
        ParseResult.success { o with logfd := env.openFd o.logfile } := by
      rw [hbase, daemonCheck_off env o hd]
      simp [hlog]
    refine ⟨hr, ?_⟩
    rw [hr]
    rfl

/-- Claim C8 witness: daemonize requested with a logfile, the user lookup
fails, and the parse fails as the amended claim states. -/
theorem c8_witness :
    getoptLoop options_init [('d', ""), ('l', "/var/log/x")] = LoopStep.cont c8Opts ∧
    c8Opts.daemonize = true ∧
    envNoLookup.pw c8Opts.user = none ∧
    options_parse_args envNoLookup options_init [('d', ""), ('l', "/var/log/x")] =
      ParseResult.failure := by
  refine ⟨by decide, by decide, by decide, ?_⟩
  exact (c8_startup_failures envNoLookup [('d', ""), ('l', "/var/log/x")] c8Opts (by decide)).1
    (by decide) (by decide)

/-! Claim C9 -/

/-- Claim C9: the claim says the escaped name always fits in the 254-byte
name field with its terminator.  A 90-byte name of exclamation marks passes
the length check of main.c line 101, is accepted (a fetch is issued), yet
its percent-escaped form stored by the memcpy of line 121 is 270 bytes:
270 plus a terminator does not fit in 254. -/
theorem c9_escaped_name_overflow :
    bangName.length ≤ 253 ∧
    (fetchRequest (dns_server_cb (mainApp []) 0 5 0 bangName 1)).isSome = true ∧
    ((fetchRequest (dns_server_cb (mainApp []) 0 5 0 bangName 1)).map
      (fun r => r.name.length)) = some 270 ∧
    ¬ 270 + 1 ≤ 254 := by
  decide

/-! Claim C10 -/

theorem getoptReturn_ne_bootstrap (c : Char) : getoptReturn c ≠ 'b' := by
  by_cases hk : isKnownOpt c = true
  · simp only [getoptReturn, if_pos hk]
    intro hc
    subst hc
    exact absurd hk (by decide)
  · simp only [getoptReturn, if_neg hk]
    decide

theorem optSwitch_cont_bootstrap (o : Options) (c : Char) (arg : String) (o1 : Options)
    (hb : c ≠ 'b') (h : optSwitch o c arg = LoopStep.cont o1) :
    o1.bootstrap_dns = o.bootstrap_dns := by
  unfold optSwitch at h
  split at h
  any_goals (injection h with h2; subst h2; rfl)
  any_goals (cases h)
  exact absurd rfl hb

theorem getoptLoop_cont_bootstrap (args : List (Char × String)) (o o1 : Options)
    (h : getoptLoop o args = LoopStep.cont o1) :
    o1.bootstrap_dns = o.bootstrap_dns := by
  induction args generalizing o with
  | nil =>
    have h' : LoopStep.cont o = LoopStep.cont o1 := h
    injection h' with h2
    subst h2
    rfl
  | cons p rest ih =>
    obtain ⟨c, arg⟩ := p
    have hu : getoptLoop o ((c, arg) :: rest) =
        (match optSwitch o (getoptReturn c) arg with
          | LoopStep.cont o2 => getoptLoop o2 rest
          | LoopStep.failure => LoopStep.failure
          | LoopStep.fatalExit => LoopStep.fatalExit) := rfl
    rw [hu] at h
    cases hs : optSwitch o (getoptReturn c) arg with
    | cont o2 =>
      rw [hs] at h
      exact (ih o2 h).trans
        (optSwitch_cont_bootstrap o (getoptReturn c) arg o2 (getoptReturn_ne_bootstrap c) hs)
    | failure => rw [hs] at h; cases h
    | fatalExit => rw [hs] at h; cases h

theorem daemonCheck_bootstrap (env : OptEnv) (o o1 : Options)
    (h : daemonCheck env o = some o1) : o1.bootstrap_dns = o.bootstrap_dns := by
  unfold daemonCheck at h
  repeat' split at h
  any_goals (injection h with h2; subst h2; rfl)
  all_goals (cases h)

/-- Claim C10: every accepted command line leaves bootstrap_dns at the
default options_init installed, because b is absent from the getopt option
string; an explicit b option is answered with a question mark by getopt and
rejected. -/
theorem c10_bootstrap_untouched (env : OptEnv) (args : List (Char × String)) (o : Options)
    (s : String)
    (h : options_parse_args env options_init args = ParseResult.success o) :
    o.bootstrap_dns = options_init.bootstrap_dns ∧
    options_parse_args env options_init [('b', s)] = ParseResult.failure := by
  constructor
  · unfold options_parse_args at h
    cases hl : getoptLoop options_init args with
    | failure => simp only [hl] at h; cases h
    | fatalExit => simp only [hl] at h; cases h
    | cont o2 =>
      simp only [hl] at h
      cases hd : daemonCheck env o2 with
      | none => simp only [hd] at h; cases h
      | some o3 =>
        simp only [hd] at h
        have h3 : o.bootstrap_dns = o3.bootstrap_dns := by
          split at h
          · injection h with h2
            subst h2
            rfl
          · injection h with h2
            subst h2
            rfl
        rw [h3, daemonCheck_bootstrap env o2 o3 hd,
          getoptLoop_cont_bootstrap args options_init o2 hl]
  · rfl

/-- Claim C10 witness: the empty command line is accepted and keeps the
default bootstrap list, and a command line carrying a b option fails. -/
theorem c10_witness :
    options_parse_args envNoLookup options_init [] = ParseResult.success optionsAfterEmpty ∧
    optionsAfterEmpty.bootstrap_dns = options_init.bootstrap_dns ∧
    options_parse_args envNoLookup options_init [('b', "9.9.9.9")] = ParseResult.failure := by
  refine ⟨by decide, ?_, ?_⟩
  · exact (c10_bootstrap_untouched envNoLookup [] optionsAfterEmpty ("9.9.9.9") (by decide)).1
  · exact (c10_bootstrap_untouched envNoLookup [] optionsAfterEmpty ("9.9.9.9") (by decide)).2
